import Mathlib

/-!
Shallow embedding of the security, indexing, search and shadow-workspace
subsystems of the `coding_agent` repository, together with theorems settling
the specification claims about them.  Python strings are modelled as Lean
`String` (operated on through their `List Char` data), dictionaries as
association lists or structures, `None`-able values as `Option`, timestamps
as natural numbers counting seconds, and the filesystem as a partial map
from absolute path strings to file contents.
-/

namespace CodingAgent

/-- Boolean prefix test on generic lists with decidable equality; mirrors
Python `str.startswith` once applied to the character lists of strings. -/
def isPre [DecidableEq α] : List α → List α → Bool
  | [], _ => true
  | _ :: _, [] => false
  | a :: as, b :: bs => a = b && isPre as bs

/-- Boolean substring test: does `pat` occur contiguously inside `l`? -/
def isSub [DecidableEq α] (pat : List α) : List α → Bool
  | [] => pat.isEmpty
  | c :: rest => isPre pat (c :: rest) || isSub pat rest

/-- ASCII lower-casing of a character list, mirroring Python `str.lower`
on the ASCII strings the repository manipulates. -/
def lowerL (l : List Char) : List Char := l.map Char.toLower

/-- Case-insensitive substring containment, mirroring
`re.search(re.escape(pat), s, re.IGNORECASE)` for the literal patterns
used by the security validator. -/
def containsCI (s pat : String) : Bool := isSub (lowerL pat.data) (lowerL s.data)

/-- Split a character list on `'/'`, mirroring Python `str.split('/')`
(so a leading slash yields a leading empty component). -/
def splitSlash : List Char → List (List Char)
  | [] => [[]]
  | c :: rest =>
    if c = '/' then [] :: splitSlash rest
    else
      match splitSlash rest with
      | [] => [[c]]
      | g :: gs => (c :: g) :: gs

/-- Normalisation of the component list of an absolute POSIX path, as done
by `os.path.normpath`: empty and `.` components are dropped, `..` removes
the previous component (and is dropped at the root). -/
def normAbs (parts : List (List Char)) : List (List Char) :=
  parts.foldl
    (fun acc c =>
      if c = [] ∨ c = ['.'] then acc
      else if c = ['.', '.'] then acc.dropLast
      else acc ++ [c]) []

/-- Python `os.path.join(a, b)` for POSIX paths: an absolute `b` discards
`a`; otherwise a single separator is inserted unless `a` already ends in
one. -/
def osPathJoin (a b : String) : String :=
  if isPre ['/'] b.data then b
  else if a.data.getLast? = some '/' then ⟨a.data ++ b.data⟩
  else ⟨a.data ++ '/' :: b.data⟩

/-- Python `os.path.abspath` restricted to already-absolute inputs (the only
case the sources exercise, since the input is a join against the resolved
project root): normalise and re-render with a leading slash. -/
def osPathAbspath (s : String) : String :=
  ⟨'/' :: (List.intercalate ['/'] (normAbs (splitSlash s.data)))⟩

/-- Python `str.startswith` on the two strings' character lists. -/
def pyStartswith (s pre : String) : Bool := isPre pre.data s.data

/-- Last path component of a string path, as `pathlib.PurePath.name` for the
plain relative/absolute path strings used here. -/
def lastComponent (p : String) : List Char := (splitSlash p.data).getLastD []

/-- Index of the last occurrence of `c` in `l`, if any. -/
def rfindIdx (c : Char) : List Char → Option Nat
  | [] => none
  | x :: xs =>
    match rfindIdx c xs with
    | some i => some (i + 1)
    | none => if x = c then some 0 else none

/-- Python `pathlib.PurePath(p).suffix`: the final component's extension
including the dot, empty for dot-less names, dotfiles and trailing dots. -/
def pySuffix (p : String) : String :=
  let name := lastComponent p
  match rfindIdx '.' name with
  | some i => if 0 < i ∧ i < name.length - 1 then ⟨name.drop i⟩ else ""
  | none => ""

/-- The last `n` elements of a list, mirroring the Python slice `l[-n:]`
used to truncate the session-state logs. -/
def takeLast (n : Nat) (l : List α) : List α := l.drop (l.length - n)

theorem takeLast_length_le (n : Nat) (l : List α) : (takeLast n l).length ≤ n := by
  simp only [takeLast, List.length_drop]
  omega

/-- Python `seconds` attribute of the non-negative `timedelta` between two
timestamps given in seconds: the total difference reduced modulo one day
(86400 seconds). -/
def pyTimedeltaSeconds (now ts : Nat) : Nat := (now - ts) % 86400

/-! ## SecurityValidator (safety_callbacks.py) -/

/-- The `dangerous_paths` regex denylist of `SecurityValidator`; every
pattern is an escaped literal, so matching is case-insensitive substring
containment. -/
def dangerousPaths : List String :=
  ["../", "/etc/", "/var/", "/usr/", "/bin/", "/sbin/",
   "~/.ssh", "~/.aws", "/proc/", "/sys/"]

/-- The `dangerous_operations` substring denylist of `SecurityValidator`. -/
def dangerousOperations : List String :=
  ["rm -rf", "sudo", "chmod 777", ">/dev/null", "2>&1",
   "exec(", "eval(", "__import__", "subprocess", "os.system"]

/-- The `sensitive_extensions` set of `SecurityValidator`. -/
def sensitiveExtensions : List String :=
  [".sh", ".bat", ".exe", ".dll", ".so",
   ".key", ".pem", ".p12", ".pfx",
   ".env", ".config"]

/-- Result dictionary of `SecurityValidator.validate_file_path`. -/
structure PathVerdict where
  valid : Bool
  severity : String
  issues : List String
  file_path : String
deriving DecidableEq

/-- Result dictionary of `SecurityValidator.validate_content`. -/
structure ContentVerdict where
  valid : Bool
  severity : String
  issues : List String
  content_size : Nat
deriving DecidableEq

/-- SecurityValidator.validate_file_path: `projectRoot` is the resolved
absolute project root (`Path(project_root).resolve()`); severity starts at
`info`, any dangerous-pattern hit or failure of the
`abspath(join(root, p)).startswith(root)` check raises it to `error`, and a
sensitive extension raises `info` to `warning`; the verdict is valid unless
the severity is `error`. -/
def validate_file_path (projectRoot file_path : String) : PathVerdict :=
  let patternHits := dangerousPaths.filter (fun pat => containsCI file_path pat)
  let patternIssues := patternHits.map
    (fun pat => "Dangerous path pattern detected: " ++ pat)
  let sev1 : String := if patternHits.isEmpty then "info" else "error"
  let absPath := osPathAbspath (osPathJoin projectRoot file_path)
  let outside := !pyStartswith absPath projectRoot
  let issues2 := patternIssues ++ (if outside then ["Path is outside project directory"] else [])
  let sev2 : String := if outside then "error" else sev1
  let fileExt := (pySuffix file_path).data |> lowerL |> String.mk
  let sensitive := sensitiveExtensions.contains fileExt
  let issues3 := issues2 ++ (if sensitive then ["Sensitive file type: " ++ fileExt] else [])
  let sev3 : String := if sensitive ∧ sev2 = "info" then "warning" else sev2
  { valid := sev3 ≠ "error"
    severity := sev3
    issues := issues3
    file_path := file_path }

/-- SecurityValidator.validate_content: dangerous-operation substrings and
payloads above one megabyte raise the severity to `warning`; the verdict is
always valid (content never blocks). -/
def validate_content (content : String) : ContentVerdict :=
  let opHits := dangerousOperations.filter (fun op => containsCI content op)
  let issues1 := opHits.map (fun op => "Potentially dangerous operation: " ++ op)
  let sev1 : String := if opHits.isEmpty then "info" else "warning"
  let large := content.data.length > 1024 * 1024
  let issues2 := issues1 ++ (if large then ["Content is very large (>1MB)"] else [])
  let sev2 : String := if large ∧ sev1 = "info" then "warning" else sev1
  { valid := true
    severity := sev2
    issues := issues2
    content_size := content.data.length }

/-- Modelled from the spec's words (not from the code): a path lies outside
the project root when the normalised absolute form of the path resolved
against the root does not have the root's own component list as a prefix.
This is the comparator the path-validation claim is stated against. -/
def resolvesOutsideRoot (projectRoot file_path : String) : Bool :=
  let rootParts := normAbs (splitSlash projectRoot.data)
  let pathParts := normAbs (splitSlash (osPathJoin projectRoot file_path).data)
  !isPre rootParts pathParts

/-! ## Security callbacks over session state (safety_callbacks.py) -/

/-- Entry appended to the `security_log` list by `validate_file_operations`:
timestamp, tool name, the argument mapping with values truncated to 100
characters, the validation result (path verdict and nested content verdict,
each absent until computed) and the final action string. -/
structure OperationEntry where
  timestamp : Nat
  tool : String
  args : List (String × String)
  validationPath : Option PathVerdict
  validationContent : Option ContentVerdict
  action : String
deriving DecidableEq

/-- Entry appended to the `security_warnings` list. -/
structure WarningEntry where
  timestamp : Nat
  tool : String
  warningType : String
  issues : List String
deriving DecidableEq

/-- Entry appended to the `search_security_log` list by
`validate_search_operations`: timestamp, tool name, the query truncated to
200 characters, the matched suspicious-pattern issues and the action. -/
structure SearchEntry where
  timestamp : Nat
  tool : String
  query : String
  issues : List String
  action : String
deriving DecidableEq

/-- The `security_counters` dictionary (its default value is all zeros, so a
missing key is identified with the zero counters it defaults to). -/
structure Counters where
  allowed : Nat
  blocked : Nat
  warnings : Nat
deriving DecidableEq

/-- The session-state keys touched by the two security callbacks; each
`state.get(key, [])` read identifies a missing list key with the empty
list. -/
structure CallbackState where
  security_log : List OperationEntry
  security_warnings : List WarningEntry
  security_counters : Counters
  search_security_log : List SearchEntry
deriving DecidableEq

/-- A session state in which none of the callback keys have been written. -/
def cbState0 : CallbackState :=
  { security_log := []
    security_warnings := []
    security_counters := ⟨0, 0, 0⟩
    search_security_log := [] }

/-- Blocking result dictionary returned by `validate_file_operations`
(returning `none` lets the wrapped tool run). -/
structure BlockResult where
  status : String
  reason : String
  issues : List String
  tool : String
deriving DecidableEq

/-- Python `args.get(key)` followed by the truthiness test `if value:`:
yields the value only when the key is present and maps to a non-empty
string. -/
def pyGetTruthy (args : List (String × String)) (key : String) : Option String :=
  match args.lookup key with
  | some v => if v = "" then none else some v
  | none => none

/-- Argument mapping as logged: every value truncated to 100 characters. -/
def truncArgs (args : List (String × String)) : List (String × String) :=
  args.map (fun kv => (kv.1, String.mk (kv.2.data.take 100)))

/-- Shared tail of `validate_file_operations` after the path check has
passed (or was skipped): validate content if present, record a content
warning, append the `allowed` entry to the security log truncated to the
last 100, and bump the `allowed` (and possibly `warnings`) counters. -/
def fileOpsAllowedPhase (toolName : String) (args : List (String × String))
    (now : Nat) (st : CallbackState) (entry : OperationEntry) :
    Option BlockResult × CallbackState :=
  let step : OperationEntry × List WarningEntry :=
    match pyGetTruthy args "content" with
    | some c =>
      let cv := validate_content c
      let e := { entry with validationContent := some cv }
      if cv.severity = "warning" ∨ cv.severity = "error" then
        (e, takeLast 50 (st.security_warnings ++
              [⟨now, toolName, "content_validation", cv.issues⟩]))
      else (e, st.security_warnings)
    | none => (entry, st.security_warnings)
  let entryA := { step.1 with action := "allowed" }
  let c0 := st.security_counters
  let c1 := { c0 with allowed := c0.allowed + 1 }
  let c2 := if entryA.validationContent.map ContentVerdict.severity = some "warning"
            then { c1 with warnings := c1.warnings + 1 } else c1
  (none,
   { st with
      security_log := takeLast 100 (st.security_log ++ [entryA])
      security_warnings := step.2
      security_counters := c2 })

/-- validate_file_operations: the before-tool security callback for file
operations.  Returns `none` to allow the wrapped tool and a blocking result
dictionary otherwise, threading the session state explicitly.  The
`except` branch of the source is unreachable here because the embedded
operations are total. -/
def validate_file_operations (projectRoot toolName : String)
    (args : List (String × String)) (now : Nat) (st : CallbackState) :
    Option BlockResult × CallbackState :=
  let entry0 : OperationEntry :=
    { timestamp := now, tool := toolName, args := truncArgs args
      validationPath := none, validationContent := none, action := "pending" }
  match pyGetTruthy args "file_path" with
  | some fp =>
    let pv := validate_file_path projectRoot fp
    let entry1 := { entry0 with validationPath := some pv }
    if pv.valid = false then
      let entryB := { entry1 with action := "blocked" }
      (some { status := "blocked", reason := "Security validation failed"
              issues := pv.issues, tool := toolName },
       { st with security_log := takeLast 100 (st.security_log ++ [entryB]) })
    else
      fileOpsAllowedPhase toolName args now st entry1
  | none => fileOpsAllowedPhase toolName args now st entry0

/-- Word character for the `\b` boundaries of the suspicious-query regexes
(ASCII reading of `\w`). -/
def isWordChar (c : Char) : Bool := c.isAlpha || c.isDigit || c = '_'

/-- True when `l` is empty or starts with a non-word character: the state of
a `\b` boundary looking forward. -/
def boundaryAfter (l : List Char) : Bool :=
  match l with
  | [] => true
  | d :: _ => !isWordChar d

/-- Scan of `re.search("\bWORD\b", s)`: `prev` is the character left of the
current position (`none` at the start of the string). -/
def searchWordAux (pat : List Char) (prev : Option Char) : List Char → Bool
  | [] => false
  | c :: rest =>
    ((match prev with | none => true | some d => !isWordChar d) &&
      isPre pat (c :: rest) && boundaryAfter ((c :: rest).drop pat.length))
    || searchWordAux pat (some c) rest

/-- Case-insensitive whole-word search, mirroring
`re.search(r"\bWORD\b", query, re.IGNORECASE)` for an alphabetic word. -/
def searchWordCI (query pat : String) : Bool :=
  searchWordAux (lowerL pat.data) none (lowerL query.data)

/-- The `suspicious_patterns` list of `validate_search_operations`: the raw
regex text (used in the issue message) paired with its matcher. -/
def suspiciousPatterns : List (String × (String → Bool)) :=
  [("<script", fun q => containsCI q "<script"),
   ("javascript:", fun q => containsCI q "javascript:"),
   ("\\bUNION\\b", fun q => searchWordCI q "UNION"),
   ("\\bSELECT\\b", fun q => searchWordCI q "SELECT"),
   ("\\bDROP\\b", fun q => searchWordCI q "DROP"),
   ("\\bDELETE\\b", fun q => searchWordCI q "DELETE")]

/-- Issues collected over the suspicious patterns for one query. -/
def suspiciousIssues (query : String) : List String :=
  suspiciousPatterns.filterMap
    (fun pm => if pm.2 query then some ("Suspicious pattern in query: " ++ pm.1) else none)

/-- Outcome of `validate_search_operations`: `allowed` models the Python
`None` return, the other two model the returned dictionaries with the
corresponding `status` field. -/
inductive SearchOutcome where
  | allowed
  | blocked (issues : List String)
  | rateLimited
deriving DecidableEq

/-- validate_search_operations: blocks queries matching a suspicious
pattern; otherwise counts the already-logged entries whose timestamp is
within the last 60 seconds (via the `timedelta.seconds` attribute) and
rate-limits when more than 20 such entries exist; every branch appends one
entry and truncates the log to the last 50. -/
def validate_search_operations (toolName query : String) (now : Nat)
    (st : CallbackState) : SearchOutcome × CallbackState :=
  let log := st.search_security_log
  let issues := suspiciousIssues query
  let entry : SearchEntry :=
    { timestamp := now, tool := toolName, query := String.mk (query.data.take 200)
      issues := issues, action := if issues.isEmpty then "allowed" else "blocked" }
  if !issues.isEmpty then
    (SearchOutcome.blocked issues,
     { st with search_security_log := takeLast 50 (log ++ [entry]) })
  else
    let recent := log.filter (fun e => pyTimedeltaSeconds now e.timestamp < 60)
    if recent.length > 20 then
      (SearchOutcome.rateLimited,
       { st with search_security_log :=
          takeLast 50 (log ++ [{ entry with action := "rate_limited" }]) })
    else
      (SearchOutcome.allowed,
       { st with search_security_log := takeLast 50 (log ++ [entry]) })

/-- Sequential execution of a list of search queries, each given with the
clock value at which it is issued; returns the outcomes in order together
with the final session state. -/
def runSearches (toolName : String) (qs : List (String × Nat))
    (st : CallbackState) : List SearchOutcome × CallbackState :=
  match qs with
  | [] => ([], st)
  | (q, t) :: rest =>
    let r := validate_search_operations toolName q t st
    let rs := runSearches toolName rest r.2
    (r.1 :: rs.1, rs.2)

/-! ## File-operation audit log (file_system_tool.py) -/

/-- Entry appended to the `file_operations_log` list by
`_log_file_operation`. -/
structure FileOpEntry where
  timestamp : Nat
  operation : String
  file_path : String
  success : Bool
  details : String
deriving DecidableEq

/-- The session-state keys written by `_log_file_operation`: the audit list
and the per-operation counters dictionary. -/
structure FileOpState where
  file_operations_log : List FileOpEntry
  operation_counters : List (String × Nat)
deriving DecidableEq

/-- Update of the `operation_counters` dictionary:
`counters[operation] = counters.get(operation, 0) + 1`. -/
def bumpCounter (counters : List (String × Nat)) (key : String) : List (String × Nat) :=
  match counters.lookup key with
  | some n => counters.map (fun kv => if kv.1 = key then (kv.1, n + 1) else kv)
  | none => counters ++ [(key, 1)]

/-- logFileOperation models `_log_file_operation`: the new entry is appended
to `file_operations_log` and the whole list is stored back WITHOUT any
truncation (unlike the security logs there is no `[-n:]` slice here); on
success the matching operation counter is incremented. -/
def logFileOperation (st : FileOpState) (operation file_path : String)
    (success : Bool) (details : String) (now : Nat) : FileOpState :=
  { file_operations_log := st.file_operations_log ++
      [⟨now, operation, file_path, success, details⟩]
    operation_counters :=
      if success then bumpCounter st.operation_counters operation
      else st.operation_counters }

/-! ## Filesystem model and the shadow-workspace validator (lsp_tool.py) -/

/-- A filesystem is a partial map from absolute path strings to file
contents (directories are implicit: `mkdir` calls are no-ops here). -/
def FS : Type := String → Option String

/-- Write (create or overwrite) one file. -/
def fsWrite (fs : FS) (p content : String) : FS :=
  fun q => if q = p then some content else fs q

/-- Discard every file under `root`, as the `TemporaryDirectory` context
manager does to the temporary workspace on exit. -/
def fsRemoveUnder (fs : FS) (root : String) : FS :=
  fun q => if isPre (root.data ++ ['/']) q.data then none else fs q

/-- Python pathlib's `Path(root) / rel`: when `rel` is an absolute path the
left operand is DISCARDED (pathlib semantics), otherwise the relative path
is attached under `root`.  Leading `..` components of a relative `rel` are
kept verbatim here; the operating system resolves them at `open` time,
which only widens the temporary-workspace escape this join already
exhibits for absolute paths. -/
def pathlibJoin (root rel : String) : String :=
  if isPre ['/'] rel.data then rel else ⟨root.data ++ '/' :: rel.data⟩

/-- One structured finding of the diagnostic collaborator, as formatted by
`get_diagnostics`; a `none` severity models the `"unknown"` default. -/
structure Diagnostic where
  line : Nat
  character : Nat
  severity : Option Nat
  message : String
  sourceId : String
  codeId : String
deriving DecidableEq

/-- The subset of the `get_diagnostics` result dictionary that
`validate_code_in_shadow_workspace` consumes: the status, the message of an
error result, and the formatted diagnostic list. -/
structure DiagResult where
  status : String
  message : String
  diagnostics : List Diagnostic
deriving DecidableEq

/-- The file extensions with a `server_configs` entry in `LSPTool`. -/
def serverConfigExts : List String := [".py", ".java", ".js", ".ts", ".rs", ".cs"]

/-- The diagnostic collaborator interface: given the current filesystem, the
workspace root the tool was constructed over, the file path and the
optional in-memory content, produce a diagnostics result.  The shadow
validator is verified against an arbitrary collaborator of this shape. -/
def DiagFn : Type := FS → String → String → Option String → DiagResult

/-- lspGetDiagnostics models `LSPTool.get_diagnostics` as the source stands:
an extension without a language-server configuration yields an error
result; with in-memory content absent, a missing file yields an error
result; otherwise the placeholder diagnostics list (empty, per the
commented-out language-server call) is formatted and returned with
success. -/
def lspGetDiagnostics : DiagFn := fun fs rootDir file_path content =>
  let ext := pySuffix file_path
  if !serverConfigExts.contains ext then
    { status := "error"
      message := "No language server available for " ++ ext
      diagnostics := [] }
  else
    match content with
    | none =>
      match fs (pathlibJoin rootDir file_path) with
      | none => { status := "error"
                  message := "File not found: " ++ file_path
                  diagnostics := [] }
      | some _ => { status := "success", message := "", diagnostics := [] }
    | some _ => { status := "success", message := "", diagnostics := [] }

/-- The `config_files` list copied by `_copy_workspace_context`. -/
def workspaceConfigFiles : List String :=
  ["pyproject.toml", "setup.py", "requirements.txt",
   "package.json", "tsconfig.json", ".pylintrc"]

/-- Copy loop over the standard configuration files of
`_copy_workspace_context`: each file existing in the real project is
copied into the temporary workspace via pathlib joins; `shutil.copy2`
raises `SameFileError` when source and destination coincide, and that
exception — swallowed by the function's surrounding `except` — aborts the
remaining copies. -/
def copyConfigFiles (fs : FS) (projectRoot tempWorkspace : String) :
    List String → FS
  | [] => fs
  | cf :: rest =>
    match fs (pathlibJoin projectRoot cf) with
    | some c =>
      if pathlibJoin tempWorkspace cf = pathlibJoin projectRoot cf then fs
      else copyConfigFiles (fsWrite fs (pathlibJoin tempWorkspace cf) c)
             projectRoot tempWorkspace rest
    | none => copyConfigFiles fs projectRoot tempWorkspace rest

/-- copyWorkspaceContext models `LSPTool._copy_workspace_context`: copy the
target file from the real project into the temporary workspace when it
exists (both paths formed with pathlib's `/`, so an absolute `targetFile`
discards both roots and `shutil.copy2` then raises `SameFileError`, which
the function's `except` swallows, aborting the configuration-file copies
as well), then copy each standard configuration file that exists; missing
files are skipped. -/
def copyWorkspaceContext (fs : FS) (projectRoot tempWorkspace targetFile : String) : FS :=
  match fs (pathlibJoin projectRoot targetFile) with
  | some c =>
    if pathlibJoin tempWorkspace targetFile = pathlibJoin projectRoot targetFile then fs
    else copyConfigFiles (fsWrite fs (pathlibJoin tempWorkspace targetFile) c)
           projectRoot tempWorkspace workspaceConfigFiles
  | none => copyConfigFiles fs projectRoot tempWorkspace workspaceConfigFiles

/-- The subset of the `validate_code_in_shadow_workspace` success dictionary
the claims are about (`temp_workspace` is reported as well in the source). -/
structure ValidationResult where
  status : String
  valid : Bool
  error_count : Nat
  warning_count : Nat
  diagnostics : List Diagnostic
deriving DecidableEq

/-- validate_code_in_shadow_workspace: create a temporary workspace
(`tempDir`, supplied by the `TemporaryDirectory` manager), copy the minimal
context into it, write `new_content` over `temp_workspace / file_path`
(pathlib join — for an absolute `file_path` this DISCARDS the temporary
root and writes to `file_path` itself), ask the diagnostic collaborator
for findings, classify them by severity (valid iff no severity-1 finding;
severity 2 counts as a warning), and remove the temporary workspace before
returning.  The session-state bookkeeping of the source is tied to an
optional tool context and is not modelled; the `except` branch is
unreachable because the embedded steps are total. -/
def validate_code_in_shadow_workspace (diagFn : DiagFn) (fs : FS)
    (projectRoot tempDir file_path new_content : String) :
    ValidationResult × FS :=
  let fs1 := copyWorkspaceContext fs projectRoot tempDir file_path
  let fs2 := fsWrite fs1 (pathlibJoin tempDir file_path) new_content
  let diagnosticsResult := diagFn fs2 tempDir file_path (some new_content)
  let diags := diagnosticsResult.diagnostics
  let hasErrors := diags.any (fun d => d.severity = some 1)
  let errorCount := (diags.filter (fun d => d.severity = some 1)).length
  let warningCount := (diags.filter (fun d => d.severity = some 2)).length
  let fs3 := fsRemoveUnder fs2 tempDir
  ({ status := "success"
     valid := !hasErrors
     error_count := errorCount
     warning_count := warningCount
     diagnostics := diags }, fs3)

/-! ## Index freshness checker (indexing_tool.py) -/

/-- The `index_status` dictionary stored in session state by
`index_codebase_tool`; `last_indexed` is `none` when the timestamp string
is missing or empty (the falsy cases of the source). -/
structure IndexStatus where
  last_indexed : Option Nat
  files_count : Nat
  elements_count : Nat
  has_errors : Bool
deriving DecidableEq

/-- The session-state keys read by `check_index_freshness_tool`; `none` for
`index_status` models the falsy empty dictionary default. -/
structure IndexSessionState where
  index_status : Option IndexStatus
  indexed_files : List String
deriving DecidableEq

/-- Result dictionary of `check_index_freshness_tool`, restricted to the
fields the claims mention; the human-readable reason strings carry the
source's intent with the `.1f` float rendering of hours approximated by an
integer rendering. -/
structure FreshResult where
  fresh : Bool
  reason : String
  new_files : List String
  deleted_files : List String
deriving DecidableEq

/-- check_index_freshness_tool: no status or missing timestamp is stale;
an index older than 24 hours (86400 seconds) is stale; otherwise the
current qualifying-file scan (injected here as `currentFiles`, the result
of the source's `rglob` enumeration filtered by the ignore directories) is
diffed against the recorded `indexed_files` in both directions and any
difference is stale; only a clean diff is fresh.  Set differences are kept
as filtered lists, which agrees with the source's `set` differences up to
order and duplicates; the `[:5]` previews are taken on the full lists. -/
def check_index_freshness (st : IndexSessionState) (currentFiles : List String)
    (now : Nat) : FreshResult :=
  match st.index_status with
  | none =>
    { fresh := false, reason := "No index found", new_files := [], deleted_files := [] }
  | some status =>
    match status.last_indexed with
    | none =>
      { fresh := false, reason := "Index timestamp missing"
        new_files := [], deleted_files := [] }
    | some lastIndexed =>
      let hoursSince := (now - lastIndexed) / 3600
      if now - lastIndexed > 24 * 3600 then
        { fresh := false
          reason := "Index is " ++ toString hoursSince ++ " hours old"
          new_files := [], deleted_files := [] }
      else
        let newFiles := currentFiles.filter (fun f => !st.indexed_files.contains f)
        let deletedFiles := st.indexed_files.filter (fun f => !currentFiles.contains f)
        if !newFiles.isEmpty || !deletedFiles.isEmpty then
          { fresh := false
            reason := toString newFiles.length ++ " new files, " ++
                      toString deletedFiles.length ++ " deleted files"
            new_files := newFiles.take 5, deleted_files := deletedFiles.take 5 }
        else
          { fresh := true
            reason := "Index is " ++ toString hoursSince ++ " hours old and up to date"
            new_files := [], deleted_files := [] }

/-! ## Vector search (vector_search_tool.py) -/

/-- Per-element metadata dictionary returned by the vector store (fields
mirror the `meta.get` keys of the formatting loop). -/
structure ElementMeta where
  name : String
  element_type : String
  file_path : String
  start_line : Nat
  end_line : Nat
  docstring : String
deriving DecidableEq

/-- Default metadata, standing for the `{}` fallback and the `.get`
defaults of the formatting loop. -/
def defaultMeta : ElementMeta :=
  { name := "Unknown", element_type := "Unknown", file_path := "Unknown"
    start_line := 0, end_line := 0, docstring := "" }

/-- Response of one `collection.query` call: parallel nested lists of
documents, metadata and distances (one inner list per query embedding;
distances as rationals standing for the store's floats). -/
structure QueryResp where
  documents : List (List String)
  metadatas : List (List ElementMeta)
  distances : List (List Rat)
deriving DecidableEq

/-- One formatted search hit of `semantic_search`. -/
structure SearchHit where
  rank : Nat
  similarity_score : Rat
  element_name : String
  element_type : String
  file_path : String
  start_line : Nat
  end_line : Nat
  content_preview : String
  docstring : String
deriving DecidableEq

/-- Return dictionary of `semantic_search`, restricted to the consumed
fields (`message` is empty on the ranked success path, where the source
omits it). -/
structure SearchResponse where
  status : String
  message : String
  results : List SearchHit
deriving DecidableEq

/-- The collections half of `VectorSearchTool.__init__`: both collections
are fetched inside one `try`, so if either `get_collection` raises (its
name is absent from the persistent store) both attributes end up `None`.
The query responses the live collections would produce are injected as
`codeResp`/`fileResp`. -/
def vectorToolCollections (store : List String) (codeResp fileResp : QueryResp) :
    Option QueryResp × Option QueryResp :=
  if store.contains "code_elements" then
    if store.contains "file_summaries" then (some codeResp, some fileResp)
    else (none, none)
  else (none, none)

/-- Content preview: the document truncated to 200 characters with an
ellipsis when longer. -/
def contentPreview (doc : String) : String :=
  if doc.data.length > 200 then String.mk (doc.data.take 200) ++ "..." else doc

/-- The formatting loop of `semantic_search` over the first row of the
query response (metadata and distance defaulted when their lists are
shorter than the document list). -/
def formatHits (docs : List String) (metas : List ElementMeta) (dists : List Rat) :
    List SearchHit :=
  (List.range docs.length).map (fun i =>
    let doc := docs.getD i ""
    let meta := metas.getD i defaultMeta
    let dist := dists.getD i 1
    { rank := i + 1
      similarity_score := 1 - dist
      element_name := meta.name
      element_type := meta.element_type
      file_path := meta.file_path
      start_line := meta.start_line
      end_line := meta.end_line
      content_preview := contentPreview doc
      docstring := meta.docstring })

/-- semantic_search: with no code collection the call fails fast with the
index-unavailable error and its remediation message; otherwise the injected
query response is formatted — an empty first document row is a successful
empty result, anything else a ranked success.  The session-state search
logging attached to an optional tool context is not modelled. -/
def semantic_search (code_collection : Option QueryResp) (query : String) :
    SearchResponse :=
  match code_collection with
  | none =>
    { status := "error"
      message := "No code index found. Please run indexing first."
      results := [] }
  | some resp =>
    let docsRow := resp.documents.getD 0 []
    if resp.documents.isEmpty ∨ docsRow.isEmpty then
      { status := "success"
        message := "No results found for query: '" ++ query ++ "'"
        results := [] }
    else
      { status := "success"
        message := ""
        results := formatHits docsRow (resp.metadatas.getD 0 [])
                     (resp.distances.getD 0 []) }

/-! ## Claim C1 -/

/-- C1: for the project root `/project`, the path `/project2/secrets.py`
resolves outside the root after normalisation, yet
`SecurityValidator.validate_file_path` returns a non-blocking verdict
(valid, severity `info`): the `startswith` string comparison accepts any
sibling directory whose name extends the root's name, so the claim that
every path resolving outside the root is blocked fails on the code, while
the code's own issue text ("Path is outside project directory") and the
spec agree on the intended behaviour. -/
theorem path_validation_accepts_sibling_of_root :
    resolvesOutsideRoot "/project" "/project2/secrets.py" = true ∧
    (validate_file_path "/project" "/project2/secrets.py").valid = true ∧
    (validate_file_path "/project" "/project2/secrets.py").severity = "info" := by
  refine ⟨rfl, rfl, rfl⟩

/-! ## Claim C5 -/

/-- C5 counterexample: twenty-one clean search queries issued at the same
instant (hence within one 60-second window) are ALL allowed — in
particular the 21st is not rate-limited, because the callback only
rate-limits when strictly more than 20 previously logged searches fall in
the window, and the 21st sees just 20. -/
theorem rate_limit_allows_21st_query_cex :
    (runSearches "search_code_tool" (List.replicate 21 ("find foo", 0)) cbState0).1 =
      List.replicate 21 SearchOutcome.allowed := by
  decide

/-- C5 (amended): within one 60-second window the first 21 clean queries
are allowed and the 22nd is the first to be rejected as rate-limited;
and 21 clean queries spread across more than 61 seconds (here 4 seconds
apart, spanning 81 seconds) are likewise all allowed. -/
theorem rate_limit_rejects_22nd_query :
    (runSearches "search_code_tool" (List.replicate 22 ("find foo", 5)) cbState0).1 =
      List.replicate 21 SearchOutcome.allowed ++ [SearchOutcome.rateLimited] ∧
    (runSearches "search_code_tool"
        ((List.range 21).map (fun i => ("find foo", 4 * i))) cbState0).1 =
      List.replicate 21 SearchOutcome.allowed := by
  constructor
  · decide
  · decide

/-! ## Claim C6 -/

/-- C6 counterexample: a session state whose recorded indexed-file set is
empty (as produced by indexing a project with zero qualifying files), with
a recent index timestamp and a current scan that also finds no qualifying
files, makes `check_index_freshness_tool` report FRESH: both set
differences are empty, so the empty index is declared up to date. -/
theorem freshness_fresh_on_empty_index_cex :
    (check_index_freshness ⟨some ⟨some 0, 0, 0, false⟩, []⟩ [] 0).fresh = true := by
  rfl

/-- C6 (amended): with an empty recorded indexed-file set the freshness
check never returns FRESH provided the current scan finds at least one
qualifying file — every branch (no status, missing timestamp, stale age,
non-empty new-file difference) is stale; only the empty-project scan
escapes to FRESH. -/
theorem freshness_stale_when_empty_index_and_files_exist
    (st : IndexSessionState) (currentFiles : List String) (now : Nat)
    (hempty : st.indexed_files = []) (hfiles : currentFiles ≠ []) :
    (check_index_freshness st currentFiles now).fresh = false := by
  obtain ⟨istat, ifiles⟩ := st
  simp only at hempty
  subst hempty
  cases istat with
  | none => rfl
  | some status =>
    cases hli : status.last_indexed with
    | none => simp [check_index_freshness, hli]
    | some t =>
      simp only [check_index_freshness, hli]
      split
      · rfl
      · simp [hfiles]

/-- C6 witness: the amended statement applied at a concrete state — empty
indexed set, fresh timestamp, one current file — is stale. -/
theorem freshness_stale_when_empty_index_and_files_exist_witness :
    (check_index_freshness ⟨some ⟨some 0, 1, 1, false⟩, []⟩ ["a.py"] 0).fresh = false :=
  freshness_stale_when_empty_index_and_files_exist
    ⟨some ⟨some 0, 1, 1, false⟩, []⟩ ["a.py"] 0 rfl (by simp)

/-! ## Claim C7 -/

/-- C7: when no prior successful index run has created the
`code_elements` collection, the constructor leaves the code collection
empty and `semantic_search` returns exactly the index-unavailable error
result with its remediation message — never a successful result with an
empty list. -/
theorem semantic_search_without_index_errors
    (store : List String) (codeResp fileResp : QueryResp) (query : String)
    (h : store.contains "code_elements" = false) :
    semantic_search (vectorToolCollections store codeResp fileResp).1 query =
      { status := "error"
        message := "No code index found. Please run indexing first."
        results := [] } ∧
    (semantic_search (vectorToolCollections store codeResp fileResp).1 query).status ≠
      "success" := by
  have hcoll : (vectorToolCollections store codeResp fileResp).1 = none := by
    unfold vectorToolCollections
    rw [h]
    simp
  rw [hcoll]
  exact ⟨rfl, by simp [semantic_search]⟩

/-- C7 witness: with an empty persistent store (no collections at all) a
search for any query yields the index-unavailable error. -/
theorem semantic_search_without_index_errors_witness :
    semantic_search (vectorToolCollections [] ⟨[], [], []⟩ ⟨[], [], []⟩).1 "auth" =
      { status := "error"
        message := "No code index found. Please run indexing first."
        results := [] } :=
  (semantic_search_without_index_errors [] ⟨[], [], []⟩ ⟨[], [], []⟩ "auth" rfl).1

/-! ## Claim C8 -/

/-- C8 counterexample: `_log_file_operation` performs no truncation — one
more call on a file-operations log that already holds 150 entries yields
151 entries, exceeding every cap used anywhere in the system (the largest
is 100), so the claim that every list-valued log is truncated by its
writer to a fixed cap fails for the file-operations log. -/
theorem file_operations_log_unbounded_cex :
    (logFileOperation ⟨List.replicate 150 ⟨0, "read", "a.py", true, ""⟩, []⟩
        "read" "a.py" true "" 0).file_operations_log.length = 151 := by
  simp [logFileOperation]

/-- C8 (amended): the security log and the search security log are indeed
truncated by their writers on every append (to the last 100 and 50 entries
respectively), but the file-operations log is appended to WITHOUT
truncation and grows by exactly one entry on every call. -/
theorem log_truncation_behavior :
    (∀ (projectRoot toolName : String) (args : List (String × String))
        (now : Nat) (st : CallbackState),
      (validate_file_operations projectRoot toolName args now st).2.security_log.length ≤ 100) ∧
    (∀ (toolName query : String) (now : Nat) (st : CallbackState),
      (validate_search_operations toolName query now st).2.search_security_log.length ≤ 50) ∧
    (∀ (st : FileOpState) (operation file_path details : String) (success : Bool) (now : Nat),
      (logFileOperation st operation file_path success details now).file_operations_log.length =
        st.file_operations_log.length + 1) := by
  refine ⟨?_, ?_, ?_⟩
  · intro projectRoot toolName args now st
    unfold validate_file_operations
    cases pyGetTruthy args "file_path" with
    | none =>
      simp only [fileOpsAllowedPhase]
      exact takeLast_length_le _ _
    | some fp =>
      simp only
      split
      · exact takeLast_length_le _ _
      · simp only [fileOpsAllowedPhase]
        exact takeLast_length_le _ _
  · intro toolName query now st
    unfold validate_search_operations
    dsimp only
    split
    · exact takeLast_length_le _ _
    · split
      · exact takeLast_length_le _ _
      · exact takeLast_length_le _ _
  · intro st operation file_path details success now
    simp [logFileOperation]

/-! ## Claim C2 -/

/-- Concrete one-file project tree (the real `a.py` under the project root
`/p` holds `"old"`). -/
def fsWitness : FS := fun q => if q = "/p/a.py" then some "old" else none

/-- C2: the no-trace claim fails on the code.  Validating the absolute
path `/p/a.py` (the real project file) with proposed content `"new"`
OVERWRITES the real file: `temp_workspace / file_path` is a pathlib join,
which discards the temporary root when `file_path` is absolute, so the
shadow write lands on the real project tree (the preceding copy step
aborts on `SameFileError`), the call still reports success, and the
temporary-directory cleanup does not restore the file — after the call
`/p/a.py` holds `"new"` instead of its prior `"old"`.  The spec's intent
("never mutating the real project tree") is unambiguous; the unguarded
pathlib join is the slip. -/
theorem shadow_validation_escapes_for_absolute_path :
    fsWitness "/p/a.py" = some "old" ∧
    (validate_code_in_shadow_workspace lspGetDiagnostics fsWitness
        "/p" "/t" "/p/a.py" "new").2 "/p/a.py" = some "new" ∧
    (validate_code_in_shadow_workspace lspGetDiagnostics fsWitness
        "/p" "/t" "/p/a.py" "new").1.status = "success" ∧
    (validate_code_in_shadow_workspace lspGetDiagnostics fsWitness
        "/p" "/t" "/p/a.py" "new").1.valid = true := by
  refine ⟨rfl, rfl, rfl, rfl⟩

/-! ## Claim C3 -/

/-- The everywhere-empty filesystem. -/
def fsEmpty : FS := fun _ => none

/-- C3 counterexample: validating content for `notes.txt` makes the
diagnostic collaborator fail (its exact invocation inside the call returns
an error-status result, since no language server exists for `.txt`), yet
`validate_code_in_shadow_workspace` reports status `success` with a pass
verdict — the collaborator failure is conflated with zero diagnostics
because the result's status field is never inspected. -/
theorem collaborator_error_reported_as_pass_cex :
    (lspGetDiagnostics
        (fsWrite (copyWorkspaceContext fsEmpty "/p" "/t" "notes.txt")
          (pathlibJoin "/t" "notes.txt") "hello")
        "/t" "notes.txt" (some "hello")).status = "error" ∧
    (validate_code_in_shadow_workspace lspGetDiagnostics fsEmpty
        "/p" "/t" "notes.txt" "hello").1.status = "success" ∧
    (validate_code_in_shadow_workspace lspGetDiagnostics fsEmpty
        "/p" "/t" "notes.txt" "hello").1.valid = true := by
  refine ⟨rfl, rfl, rfl⟩

/-- C3 (amended): when the diagnostic collaborator returns an error-status
result — which in this code always carries an empty diagnostic list — the
shadow validation reports a SUCCESS outcome with a pass verdict, exactly
as if zero diagnostics had been returned; only an exception raised during
workspace setup or collaborator construction reaches the error outcome. -/
theorem collaborator_error_result_yields_pass
    (diagFn : DiagFn) (fs : FS) (projectRoot tempDir file_path new_content : String)
    (_herr : (diagFn (fsWrite (copyWorkspaceContext fs projectRoot tempDir file_path)
          (pathlibJoin tempDir file_path) new_content)
        tempDir file_path (some new_content)).status = "error")
    (hempty : (diagFn (fsWrite (copyWorkspaceContext fs projectRoot tempDir file_path)
          (pathlibJoin tempDir file_path) new_content)
        tempDir file_path (some new_content)).diagnostics = []) :
    (validate_code_in_shadow_workspace diagFn fs projectRoot tempDir
        file_path new_content).1.status = "success" ∧
    (validate_code_in_shadow_workspace diagFn fs projectRoot tempDir
        file_path new_content).1.valid = true := by
  unfold validate_code_in_shadow_workspace
  dsimp only
  rw [hempty]
  exact ⟨rfl, rfl⟩

/-- C3 witness: the amended statement applied to the collaborator of the
source on a Markdown file (no language server for `.md`): the collaborator
invocation errors and the validation reports success with a pass
verdict. -/
theorem collaborator_error_result_yields_pass_witness :
    (validate_code_in_shadow_workspace lspGetDiagnostics fsEmpty
        "/p" "/t" "readme.md" "text").1.status = "success" ∧
    (validate_code_in_shadow_workspace lspGetDiagnostics fsEmpty
        "/p" "/t" "readme.md" "text").1.valid = true :=
  collaborator_error_result_yields_pass lspGetDiagnostics fsEmpty
    "/p" "/t" "readme.md" "text" rfl rfl

/-! ## Claim C4 -/

/-- C4: the shadow validation reports a pass verdict exactly when the
diagnostic list it received contains no severity-1 (error) finding —
warnings (severity 2) are counted separately and never affect validity —
for any diagnostic collaborator and hence for every diagnostic list
produced during shadow validation. -/
theorem shadow_pass_iff_no_error_severity
    (diagFn : DiagFn) (fs : FS) (projectRoot tempDir file_path new_content : String) :
    ((validate_code_in_shadow_workspace diagFn fs projectRoot tempDir
        file_path new_content).1.valid = true ↔
      (validate_code_in_shadow_workspace diagFn fs projectRoot tempDir
        file_path new_content).1.diagnostics.filter (fun d => d.severity = some 1) = []) ∧
    (validate_code_in_shadow_workspace diagFn fs projectRoot tempDir
        file_path new_content).1.warning_count =
      ((validate_code_in_shadow_workspace diagFn fs projectRoot tempDir
        file_path new_content).1.diagnostics.filter (fun d => d.severity = some 2)).length := by
  unfold validate_code_in_shadow_workspace
  dsimp only
  refine ⟨?_, rfl⟩
  simp [List.filter_eq_nil_iff, List.any_eq_false]

/-! ## Claims C9 and C10 -/

/-- Characterisation of the shared allowed-path tail of
`validate_file_operations`: it allows the operation, appends exactly one
`allowed` entry carrying the incoming path-validation result to the
security log (truncated to 100), bumps the allowed counter, never touches
the blocked counter, and bumps the warnings counter exactly when the
logged entry carries a warning-severity content validation. -/
theorem fileOpsAllowedPhase_spec (toolName : String) (args : List (String × String))
    (now : Nat) (st : CallbackState) (entry : OperationEntry)
    (hvc : entry.validationContent = none) :
    ∃ e : OperationEntry,
      (fileOpsAllowedPhase toolName args now st entry).1 = none ∧
      (fileOpsAllowedPhase toolName args now st entry).2.security_log =
        takeLast 100 (st.security_log ++ [e]) ∧
      e.action = "allowed" ∧
      e.validationPath = entry.validationPath ∧
      (fileOpsAllowedPhase toolName args now st entry).2.security_counters.allowed =
        st.security_counters.allowed + 1 ∧
      (fileOpsAllowedPhase toolName args now st entry).2.security_counters.blocked =
        st.security_counters.blocked ∧
      (fileOpsAllowedPhase toolName args now st entry).2.security_counters.warnings =
        (if e.validationContent.map ContentVerdict.severity = some "warning"
         then st.security_counters.warnings + 1
         else st.security_counters.warnings) := by
  unfold fileOpsAllowedPhase
  cases hc : pyGetTruthy args "content" with
  | none =>
    dsimp only
    refine ⟨{ entry with action := "allowed" }, rfl, rfl, rfl, rfl, ?_, ?_, ?_⟩
    · split <;> rfl
    · split <;> rfl
    · simp [hvc]
  | some c =>
    dsimp only
    by_cases hsev : (validate_content c).severity = "warning" ∨
        (validate_content c).severity = "error"
    · rw [if_pos hsev]
      refine ⟨{ entry with validationContent := some (validate_content c), action := "allowed" },
              rfl, rfl, rfl, rfl, ?_, ?_, ?_⟩
      · split <;> rfl
      · split <;> rfl
      · split <;> rfl
    · rw [if_neg hsev]
      refine ⟨{ entry with validationContent := some (validate_content c), action := "allowed" },
              rfl, rfl, rfl, rfl, ?_, ?_, ?_⟩
      · split <;> rfl
      · split <;> rfl
      · split <;> rfl

/-- C9 counterexample: a blocked file operation (path `/etc/passwd`
matches the `/etc/` denylist pattern) is logged with action `blocked`,
yet the security-counters dictionary is completely unchanged — the
blocked counter stays 0, so it does not increase by one when a blocked
operation occurs. -/
theorem blocked_counter_not_incremented_cex :
    (validate_file_operations "/r" "write_file" [("file_path", "/etc/passwd")] 0 cbState0).1 ≠
      none ∧
    ((validate_file_operations "/r" "write_file"
        [("file_path", "/etc/passwd")] 0 cbState0).2.security_log.map OperationEntry.action) =
      ["blocked"] ∧
    (validate_file_operations "/r" "write_file"
        [("file_path", "/etc/passwd")] 0 cbState0).2.security_counters =
      cbState0.security_counters := by
  decide

/-- C9 (amended): every invocation of `validate_file_operations` appends
exactly one entry to the security log (truncated to the last 100); on an
allowed outcome the allowed counter increases by one and the warnings
counter increases exactly when the logged entry carries a
warning-severity content validation; on a blocked outcome the entry is
logged with action `blocked` but NO counter changes — in particular the
blocked counter is never incremented anywhere. -/
theorem security_log_and_counter_maintenance
    (projectRoot toolName : String) (args : List (String × String)) (now : Nat)
    (st : CallbackState) :
    ∃ e : OperationEntry,
      (validate_file_operations projectRoot toolName args now st).2.security_log =
        takeLast 100 (st.security_log ++ [e]) ∧
      ((validate_file_operations projectRoot toolName args now st).1 = none →
        (validate_file_operations projectRoot toolName args now st).2.security_counters.allowed =
          st.security_counters.allowed + 1 ∧
        (validate_file_operations projectRoot toolName args now st).2.security_counters.blocked =
          st.security_counters.blocked ∧
        (validate_file_operations projectRoot toolName args now st).2.security_counters.warnings =
          (if e.validationContent.map ContentVerdict.severity = some "warning"
           then st.security_counters.warnings + 1
           else st.security_counters.warnings)) ∧
      ((validate_file_operations projectRoot toolName args now st).1 ≠ none →
        e.action = "blocked" ∧
        (validate_file_operations projectRoot toolName args now st).2.security_counters =
          st.security_counters) := by
  unfold validate_file_operations
  cases hf : pyGetTruthy args "file_path" with
  | none =>
    dsimp only
    obtain ⟨e, h1, h2, h3, -, h5, h6, h7⟩ :=
      fileOpsAllowedPhase_spec toolName args now st
        { timestamp := now, tool := toolName, args := truncArgs args
          validationPath := none, validationContent := none, action := "pending" } rfl
    exact ⟨e, h2, fun _ => ⟨h5, h6, h7⟩, fun hn => absurd h1 hn⟩
  | some fp =>
    dsimp only
    split
    · refine ⟨_, rfl, ?_, ?_⟩
      · intro h; exact absurd h (by simp)
      · intro _; exact ⟨rfl, rfl⟩
    · obtain ⟨e, h1, h2, h3, -, h5, h6, h7⟩ :=
        fileOpsAllowedPhase_spec toolName args now st
          { timestamp := now, tool := toolName, args := truncArgs args
            validationPath := some (validate_file_path projectRoot fp)
            validationContent := none, action := "pending" } rfl
      exact ⟨e, h2, fun _ => ⟨h5, h6, h7⟩, fun hn => absurd h1 hn⟩

/-- C9 witness: a concrete allowed invocation — reading `a.py` under the
root `/r` — returns `none` (allowed) and raises the allowed counter from
0 to 1. -/
theorem security_log_and_counter_maintenance_witness :
    (validate_file_operations "/r" "read_file" [("file_path", "a.py")] 0 cbState0).1 = none ∧
    (validate_file_operations "/r" "read_file"
        [("file_path", "a.py")] 0 cbState0).2.security_counters.allowed = 1 := by
  obtain ⟨e, -, h2, -⟩ :=
    security_log_and_counter_maintenance "/r" "read_file" [("file_path", "a.py")] 0 cbState0
  exact ⟨rfl, (h2 rfl).1⟩

/-- C10: when the argument mapping has no `file_path` key, or maps it to
the empty string, `validate_file_operations` performs no path validation
at all (the logged entry carries no path verdict) and allows the
operation, whatever filesystem location the wrapped tool will actually
touch; content, if present, contributes at most a non-blocking warning. -/
theorem missing_file_path_skips_validation
    (projectRoot toolName : String) (args : List (String × String)) (now : Nat)
    (st : CallbackState)
    (h : args.lookup "file_path" = none ∨ args.lookup "file_path" = some "") :
    (validate_file_operations projectRoot toolName args now st).1 = none ∧
    ∃ e : OperationEntry,
      (validate_file_operations projectRoot toolName args now st).2.security_log =
        takeLast 100 (st.security_log ++ [e]) ∧
      e.action = "allowed" ∧
      e.validationPath = none := by
  have hget : pyGetTruthy args "file_path" = none := by
    rcases h with h | h <;> simp [pyGetTruthy, h]
  unfold validate_file_operations
  rw [hget]
  dsimp only
  obtain ⟨e, h1, h2, h3, h4, -, -, -⟩ :=
    fileOpsAllowedPhase_spec toolName args now st
      { timestamp := now, tool := toolName, args := truncArgs args
        validationPath := none, validationContent := none, action := "pending" } rfl
  exact ⟨h1, e, h2, h3, h4⟩

/-- C10 witness: a call whose arguments carry only content (even content
that triggers a dangerous-operation warning) and no `file_path` key is
allowed without any path validation. -/
theorem missing_file_path_skips_validation_witness :
    (validate_file_operations "/r" "write_file"
        [("content", "import subprocess")] 0 cbState0).1 = none :=
  (missing_file_path_skips_validation "/r" "write_file"
    [("content", "import subprocess")] 0 cbState0 (Or.inl rfl)).1

end CodingAgent
